import Mathlib

/-
Verification of the entity-data merge and form-fill pipeline of the
ai-powered-form-filling backend.

The definitions below are shallow embeddings of the Python sources:
  * scripts/migrate_consolidate_extracted_data.py  (deep_merge)
  * api/v1/routers/form_fill.py                    (parse_toon_data, form_fill)
  * api/v1/routers/user_data.py                    (create_entity_data)
  * src/services/template_processing/html_parser.py
        (SEMANTIC_FIELD_MAP, _get_semantic_info, fill_html_template,
         validate_field_data)
  * src/services/data_extraction/extract_contents.py
        (calculate_age_from_dob, enrich_extracted_data,
         extract_and_save_organize_data)

Python dicts are embedded as association lists with unique keys (first
binding wins on lookup, assignment replaces in place), JSON-ish values as
Option String (none = null), and the impure clock (datetime.now) as an
explicit Date argument.  All text processing is done over List Char with
structural recursion so that every definition evaluates inside the kernel;
ASCII is assumed for case folding, which covers the string constants of the
sources.
-/

set_option maxRecDepth 100000

/-- Lookup of a key in an association-list dictionary (first binding wins),
modelling Python dict access. -/
def dictLookup {α : Type} (k : String) (d : List (String × α)) : Option α :=
  match d with
  | [] => none
  | (k2, v) :: t => if k2 = k then some v else dictLookup k t

/-- Membership test for a key, modelling the Python test of key in dict. -/
def dictContains {α : Type} (d : List (String × α)) (k : String) : Bool :=
  (dictLookup k d).isSome

/-- Update of a dictionary at a key, modelling Python dict assignment:
the first binding of the key is replaced in place, a missing key is
appended at the end. -/
def dictSet {α : Type} (d : List (String × α)) (k : String) (v : α) :
    List (String × α) :=
  match d with
  | [] => [(k, v)]
  | (k2, w) :: t => if k2 = k then (k2, v) :: t else (k2, w) :: dictSet t k v

/-- Whitespace predicate used to model the Python strip and split calls. -/
def pyWS (c : Char) : Bool :=
  c = ' ' ∨ c = '\t' ∨ c = '\n' ∨ c = '\r' ∨ c = '\x0b' ∨ c = '\x0c'

/-- Both-ends whitespace strip over characters, modelling str.strip(). -/
def trimChars (l : List Char) : List Char :=
  ((l.dropWhile pyWS).reverse.dropWhile pyWS).reverse

/-- String-level strip, modelling str.strip(). -/
def pyStrip (s : String) : String := String.mk (trimChars s.toList)

/-- ASCII lowercase of a string, modelling str.lower() on ASCII data. -/
def pyLower (s : String) : String := String.mk (s.toList.map Char.toLower)

/-- Split of a character list at every occurrence of a separator,
modelling str.split(sep) for a one-character separator: no chunk is
dropped, so the empty input yields one empty chunk. -/
def splitOnChar (sep : Char) : List Char → List (List Char)
  | [] => [[]]
  | c :: t =>
    let r := splitOnChar sep t
    if c = sep then [] :: r
    else
      match r with
      | [] => [[c]]
      | h :: t2 => (c :: h) :: t2

/-- Split of a character list at runs of whitespace with empty chunks
dropped, modelling the whitespace matching of strptime formats that
contain a blank. -/
def splitWSAux : List Char → List Char → List (List Char)
  | [], acc => if acc.isEmpty then [] else [acc.reverse]
  | c :: t, acc =>
    if pyWS c then
      if acc.isEmpty then splitWSAux t [] else acc.reverse :: splitWSAux t []
    else splitWSAux t (c :: acc)

/-- Whitespace tokenization of a character list. -/
def splitWS (l : List Char) : List (List Char) := splitWSAux l []

/-- Split of a character list at the first occurrence of a separator,
modelling str.partition(sep) for a one-character separator (the pair is
(text before, text after); with no separator the whole input is the first
component). -/
def breakAtChar (sep : Char) : List Char → List Char × List Char
  | [] => ([], [])
  | c :: t =>
    if c = sep then ([], t)
    else
      let p := breakAtChar sep t
      (c :: p.1, p.2)

/-- Substring test over characters, modelling the Python in operator on
strings and re.search for a literal. -/
def isSubstr (needle : List Char) : List Char → Bool
  | [] => needle.isEmpty
  | c :: t => needle.isPrefixOf (c :: t) || isSubstr needle t

/-- Substring test at string level (needle occurs inside hay). -/
def strContains (hay needle : String) : Bool :=
  isSubstr needle.toList hay.toList

/-- Digit decoding of a character run: some value when the run is nonempty
and all decimal digits, none otherwise. -/
def digitsToNat : List Char → Option Nat
  | [] => none
  | l =>
    if l.all Char.isDigit then
      some (l.foldl (fun n c => n * 10 + (c.toNat - 48)) 0)
    else none

/-- Decimal rendering of a natural number (fuel-based so that it reduces
inside the kernel), modelling Python str() on a non-negative int. -/
def natDigitsAux : Nat → Nat → List Char
  | 0, _ => []
  | fuel + 1, n =>
    if n = 0 then []
    else natDigitsAux fuel (n / 10) ++ [Char.ofNat (48 + n % 10)]

/-- Decimal rendering of a natural number. -/
def natToStr (n : Nat) : String :=
  if n = 0 then "0" else String.mk (natDigitsAux (n + 1) n)

/-- Decimal rendering of an integer, modelling Python str() on an int. -/
def intToStr (i : Int) : String :=
  if i < 0 then "-" ++ natToStr i.natAbs else natToStr i.natAbs

/-- Condition of the first branch of deep_merge
(scripts/migrate_consolidate_extracted_data.py line 42): the Python test
of value being truthy and not in the list holding the empty string, N/A,
the two-quote string and None.  none embeds JSON null (falsy in Python),
so the test reduces to: value is a string different from the empty string,
from N/A and from the two-quote string. -/
def goodValue (v : Option String) : Bool :=
  match v with
  | none => false
  | some s => decide (s ≠ "" ∧ s ≠ "N/A" ∧ s ≠ "\"\"")

/-- Shallow embedding of deep_merge
(scripts/migrate_consolidate_extracted_data.py lines 36-46): fold the new
dict over a copy of the existing one; a good (truthy, non-sentinel) new
value is always written, any other new value is written only when its key
is absent from the accumulated dict. -/
def deep_merge (existing new : List (String × Option String)) :
    List (String × Option String) :=
  new.foldl
    (fun merged kv =>
      if goodValue kv.2 then dictSet merged kv.1 kv.2
      else if dictContains merged kv.1 then merged
      else dictSet merged kv.1 kv.2)
    existing

/-- Key normalization inside parse_toon_data
(api/v1/routers/form_fill.py line 67): strip, opening square bracket and
space replaced by underscore, closing square bracket dropped, lowercase.
String.replace with one-character arguments is embedded as a map or a
filter over the characters. -/
def toonKey (raw : List Char) : String :=
  String.mk
    (((((trimChars raw).map fun c => if c = '[' then '_' else c).filter
          fun c => ¬ c = ']').map fun c => if c = ' ' then '_' else c).map
      Char.toLower)

/-- Value normalization inside parse_toon_data
(api/v1/routers/form_fill.py line 68): strip whitespace, then strip every
leading and trailing double quote. -/
def toonValue (raw : List Char) : String :=
  let t := trimChars raw
  String.mk ((t.dropWhile fun c => c = '"').reverse.dropWhile
      (fun c => c = '"')).reverse

/-- Conditional insertion of one normalized key/value pair by
parse_toon_data (api/v1/routers/form_fill.py lines 69-71): a non-empty,
non-sentinel value is stored unless the key is already bound to a truthy
value. -/
def parse_toon_insert (data : List (String × String)) (key value : String) :
    List (String × String) :=
  if key ≠ "" ∧ value ≠ "" ∧ value ≠ "N/A" ∧ value ≠ "\"\"" then
    match dictLookup key data with
    | none => dictSet data key value
    | some old => if old = "" then dictSet data key value else data
  else data

/-- Processing of one line of a TOON-format string by parse_toon_data
(api/v1/routers/form_fill.py lines 63-71): a stripped line that contains a
colon, is no comment and does not end in a colon is partitioned at its
first colon; the key is normalized, the value stripped of whitespace and
quotes, and the pair conditionally inserted. -/
def parse_toon_line (data : List (String × String)) (rawLine : List Char) :
    List (String × String) :=
  let line := trimChars rawLine
  if line.contains ':' ∧ line.head? ≠ some '#' ∧ line.getLast? ≠ some ':' then
    let p := breakAtChar ':' line
    parse_toon_insert data (toonKey p.1) (toonValue p.2)
  else data

/-- Shallow embedding of parse_toon_data
(api/v1/routers/form_fill.py lines 60-72): fold parse_toon_line over the
newline-separated lines of the raw string, starting from the empty dict. -/
def parse_toon_data (raw : String) : List (String × String) :=
  (splitOnChar '\n' raw.toList).foldl parse_toon_line []

/-- Shallow embedding of SEMANTIC_FIELD_MAP
(src/services/template_processing/html_parser.py lines 16-205), restricted
to the semantic_type component, which is what the normalization claims are
about.  Each regex pattern of the source is an alternation of literals
with optional pieces, matched by re.search against lowercased text, so it
is embedded as the set of its literal expansions: a pattern matches a text
exactly when one expansion is a substring of it.  Expansions that merely
extend another alternative of the same pattern by an optional suffix are
subsumed by the base form and listed only through it; the character class
of underscore-or-whitespace inside the dob pattern is expanded with the
space character, the only whitespace the lowercased name-and-label text
can contain. -/
def SEMANTIC_FIELD_MAP : List (List String × String) :=
  [ (["full_name", "fullname", "name", "applicant_name", "applicantname",
      "resident_name", "residentname"], "person_name"),
    (["father_name", "fathername", "fathers_name", "fathersname"],
      "father_name"),
    (["mother_name", "mothername", "mothers_name", "mothersname"],
      "mother_name"),
    (["spouse_name", "spousename", "husband_name", "husbandname",
      "wife_name", "wifename"], "spouse_name"),
    (["guardian_name", "guardianname", "parent_guardian", "parentguardian"],
      "guardian_name"),
    (["aadhaar", "aadhar", "uid"], "aadhaar_number"),
    (["pan"], "pan_number"),
    (["passport"], "passport_number"),
    (["voter_id", "voterid", "epic"], "voter_id"),
    (["driving_license", "drivinglicense", "dl"], "driving_license"),
    (["enrolment", "enrollment"], "enrollment_id"),
    (["mobile", "phone", "contact"], "mobile_number"),
    (["email", "e_mail"], "email"),
    (["house", "building", "flat"], "house_number"),
    (["street", "road", "lane"], "street"),
    (["landmark"], "landmark"),
    (["village", "town", "city", "vtc"], "village_town_city"),
    (["post_office", "postoffice", "po"], "post_office"),
    (["sub_district", "subdistrict", "taluk", "tehsil", "mandal"],
      "sub_district"),
    (["district"], "district"),
    (["state", "province"], "state"),
    (["country"], "country"),
    (["pin_code", "pincode", "postal_code", "postalcode", "zip"], "pincode"),
    (["address_line", "addressline", "address_1", "address 1", "address1"],
      "address_line_1"),
    (["address_2", "address 2", "address2"], "address_line_2"),
    (["gender", "sex"], "gender"),
    (["dob", "d_ob", "d ob", "do_b", "do b", "d_o_b", "d_o b", "d o_b",
      "d o b", "date_of_birth", "dateof_birth", "date_ofbirth",
      "dateofbirth", "birth_date", "birthdate"], "date_of_birth"),
    (["age"], "age"),
    (["nationality"], "nationality"),
    (["bank_name", "bankname"], "bank_name"),
    (["branch_name", "branchname", "branch"], "branch_name"),
    (["account", "ac", "a/c"], "account_number"),
    (["ifsc"], "ifsc_code"),
    (["issue_date", "issuedate"], "issue_date"),
    (["expiry_date", "expirydate", "valid_until", "validuntil",
      "valid_till", "validtill"], "expiry_date") ]

/-- Match of one map entry (re.search of the pattern) against lowercased
text: true exactly when some literal expansion is a substring. -/
def entryMatches (subs : List String) (text : List Char) : Bool :=
  subs.any fun sub => isSubstr sub.toList text

/-- First-match scan over the ordered semantic map. -/
def semanticScan : List (List String × String) → List Char → String
  | [], _ => "unknown"
  | (subs, ty) :: rest, t =>
    if entryMatches subs t then ty else semanticScan rest t

/-- Shallow embedding of the semantic_type result of _get_semantic_info
(src/services/template_processing/html_parser.py lines 208-230): the
field name and label are joined with a blank and lowercased, the ordered
map is scanned and the first matching rule wins; with no match the
fallback semantic_type is the string unknown. -/
def getSemanticType (fieldName label : String) : String :=
  semanticScan SEMANTIC_FIELD_MAP
    ((fieldName ++ " " ++ label).toList.map Char.toLower)

/-- An option tag inside a select element. -/
structure OptionTag where
  value_attr : Option String
  text : String
  selected : Bool
deriving DecidableEq, Repr

/-- A form element of the parsed HTML DOM: input, select or textarea
(other tags are never touched by the filler and carry the same fields). -/
structure FormElement where
  tag : String
  type_attr : Option String
  name_attr : Option String
  id_attr : Option String
  value_attr : Option String
  checked : Bool
  content : String
  options : List OptionTag
deriving DecidableEq, Repr

/-- element.get of type with the tag name as default. -/
def elementType (e : FormElement) : String := e.type_attr.getD e.tag

/-- opt.get of value with the stripped option text as default
(html_parser.py line 372). -/
def optionValue (o : OptionTag) : String := o.value_attr.getD (pyStrip o.text)

/-- Update of a single element by fill_html_template
(src/services/template_processing/html_parser.py lines 364-388): textarea
gets the value as content; select marks exactly the options whose value or
stripped text equals the value as selected and clears every other one;
checkbox and radio set checked from a truthy-word or value match; every
other input gets the value attribute. -/
def fillElement (value : String) (e : FormElement) : FormElement :=
  if e.tag = "textarea" then { e with content := value }
  else if e.tag = "select" then
    { e with
        options := e.options.map fun o =>
          if optionValue o = value ∨ pyStrip o.text = value then
            { o with selected := true }
          else { o with selected := false } }
  else if elementType e = "checkbox" ∨ elementType e = "radio" then
    let ev := e.value_attr.getD "on"
    if pyLower value ∈ ["true", "yes", "1", "on", pyLower ev] then
      { e with checked := true }
    else { e with checked := false }
  else { e with value_attr := some value }

/-- A tag the filler searches for (BeautifulSoup find_all on input,
select, textarea). -/
def isFormTag (t : String) : Bool := t = "input" ∨ t = "select" ∨ t = "textarea"

/-- Element selection by the name attribute. -/
def matchesName (fn : String) (e : FormElement) : Bool :=
  isFormTag e.tag && e.name_attr == some fn

/-- Element selection by the id attribute. -/
def matchesId (fn : String) (e : FormElement) : Bool :=
  isFormTag e.tag && e.id_attr == some fn

/-- One iteration of the fill loop (html_parser.py lines 357-363): the
elements matched by name are updated; only when no element of the document
matches by name, the elements matched by id are updated instead. -/
def fill_one_field (doc : List FormElement) (fn value : String) :
    List FormElement :=
  if doc.any (matchesName fn) then
    doc.map fun e => if matchesName fn e then fillElement value e else e
  else
    doc.map fun e => if matchesId fn e then fillElement value e else e

/-- Shallow embedding of fill_html_template
(src/services/template_processing/html_parser.py lines 340-390): fold the
field/value pairs over a fresh copy of the parsed document; pairs whose
value is None are skipped.  The returned document is a new value, the
input template is never changed. -/
def fill_html_template (doc : List FormElement)
    (formData : List (String × Option String)) : List FormElement :=
  formData.foldl
    (fun d kv =>
      match kv.2 with
      | none => d
      | some v => fill_one_field d kv.1 v)
    doc

/-- Field metadata as produced by parse_html_template and consumed by
validate_field_data. -/
structure FieldInfo where
  name : String
  label : String
  ftype : String
  required : Bool
  options : List String
deriving DecidableEq, Repr

/-- Character class of the local part of the email regex of
validate_field_data. -/
def emailLocalChar (c : Char) : Bool :=
  c.isAlpha ∨ c.isDigit ∨ c = '.' ∨ c = '_' ∨ c = '%' ∨ c = '+' ∨ c = '-'

/-- Character class of the domain part of the email regex. -/
def emailDomChar (c : Char) : Bool := c.isAlpha ∨ c.isDigit ∨ c = '.' ∨ c = '-'

/-- Tail of the email regex after the last mandatory dot: at least two
alphabetic characters reaching the end. -/
def emailTailOk (l : List Char) : Bool := l.length ≥ 2 && l.all Char.isAlpha

/-- Existence of a split of the remaining domain text into further domain
characters, a dot and an alphabetic tail (the regex backtracking). -/
def emailDomSuffix : List Char → Bool
  | [] => false
  | c :: t => (c = '.' && emailTailOk t) || (emailDomChar c && emailDomSuffix t)

/-- Match of the domain part: one or more domain characters, then a dot
and the alphabetic tail. -/
def emailDomainOk : List Char → Bool
  | [] => false
  | c :: t => emailDomChar c && emailDomSuffix t

/-- Match of the anchored email regex of validate_field_data
(html_parser.py line 417). -/
def emailMatch (s : String) : Bool :=
  let l := s.toList
  if l.contains '@' then
    let p := breakAtChar '@' l
    (¬ p.1.isEmpty) && p.1.all emailLocalChar && emailDomainOk p.2
  else false

/-- Digit run for the float grammar. -/
def floatDigits (l : List Char) : Bool := (¬ l.isEmpty) && l.all Char.isDigit

/-- Mantissa of a decimal float literal: digits with an optional dot on
either side. -/
def floatMantissa (l : List Char) : Bool :=
  match splitOnChar '.' l with
  | [a] => floatDigits a
  | [a, b] =>
    (floatDigits a && (b.isEmpty || floatDigits b)) ||
      (a.isEmpty && floatDigits b)
  | _ => false

/-- Exponent of a float literal: optional sign and digits. -/
def floatExp (l : List Char) : Bool :=
  match l with
  | '+' :: t => floatDigits t
  | '-' :: t => floatDigits t
  | t => floatDigits t

/-- Body of a float literal: mantissa with an optional exponent. -/
def floatBody (l : List Char) : Bool :=
  match splitOnChar 'e' l with
  | [m] => floatMantissa m
  | [m, ex] => floatMantissa m && floatExp ex
  | _ => false

/-- Acceptance of Python float() on its standard decimal, exponent and
inf/nan forms (underscore-grouped digits are not modelled; no claim
exercises the number branch). -/
def pyFloatOk (s : String) : Bool :=
  let l := (trimChars s.toList).map Char.toLower
  let body :=
    match l with
    | '+' :: t => t
    | '-' :: t => t
    | t => t
  body == "inf".toList || body == "infinity".toList ||
    body == "nan".toList || floatBody body

/-- Shallow embedding of validate_field_data
(src/services/template_processing/html_parser.py lines 393-434): required
check against Python truthiness, a pass for falsy values, then the email
regex, the select-options membership and the float() check by field type.
The human-readable warning texts are abbreviated (the quote characters and
the rendered options list of the source messages are dropped); the claims
only depend on which fields produce a warning. -/
def validate_field_data (fi : FieldInfo) (value : Option String) :
    Bool × Option String :=
  let truthy : Bool := match value with | none => false | some s => s ≠ ""
  if fi.required && !truthy then
    (false, some ("Field " ++ fi.label ++ " is required"))
  else if !truthy then (true, none)
  else
    let v := value.getD ""
    if fi.ftype = "email" ∧ emailMatch v = false then
      (false, some ("Invalid email format for " ++ fi.label))
    else if fi.ftype = "select" ∧ fi.options ≠ [] ∧ v ∉ fi.options then
      (false, some ("Invalid option for " ++ fi.label))
    else if fi.ftype = "number" ∧ pyFloatOk v = false then
      (false, some ("Invalid number for " ++ fi.label))
    else (true, none)

/-- One step of the validation pass of the form_fill route
(api/v1/routers/form_fill.py lines 116-120): a template field whose name
occurs in the filled data is validated and a failed check appends its
message to the warning list. -/
def form_fill_validate_step (filled : List (String × Option String))
    (ws : List String) (kv : String × FieldInfo) : List String :=
  match dictLookup kv.1 filled with
  | none => ws
  | some v =>
    match validate_field_data kv.2 v with
    | (true, _) => ws
    | (false, msg) => ws ++ [msg.getD ""]

/-- Validation pass of the form_fill route
(api/v1/routers/form_fill.py lines 115-120): fold the step over the
template fields in schema order, starting from the empty warning list. -/
def form_fill_validate (formFields : List (String × FieldInfo))
    (filled : List (String × Option String)) : List String :=
  formFields.foldl (form_fill_validate_step filled) []

/-- Result of the form_fill route: the rendered document, the filled data
echoed back to the caller and the warning list. -/
structure FormFillResult where
  filled_doc : List FormElement
  filled_data : List (String × Option String)
  validation_warnings : List String
deriving DecidableEq, Repr

/-- Shallow embedding of the tail of the form_fill route
(api/v1/routers/form_fill.py lines 114-148): the validation pass collects
warnings, then the unmodified filled_form_data is passed to
fill_html_template and also returned verbatim as filled_data next to the
warnings. -/
def form_fill_process (template : List FormElement)
    (formFields : List (String × FieldInfo))
    (filled : List (String × Option String)) : FormFillResult :=
  { filled_doc := fill_html_template template filled
    filled_data := filled
    validation_warnings := form_fill_validate formFields filled }

/-- A calendar date; datetime.now() is embedded as an explicit argument of
this type. -/
structure Date where
  year : Nat
  month : Nat
  day : Nat
deriving DecidableEq, Repr

/-- Gregorian leap-year rule, as validated by the datetime constructor. -/
def isLeap (y : Nat) : Bool := y % 4 = 0 && (y % 100 ≠ 0 || y % 400 = 0)

/-- Number of days of a month. -/
def monthLength (y m : Nat) : Nat :=
  if m = 2 then (if isLeap y then 29 else 28)
  else if m = 4 ∨ m = 6 ∨ m = 9 ∨ m = 11 then 30
  else 31

/-- Validity of a year/month/day triple for the datetime constructor
(strptime builds a datetime after the regex match, so an out-of-range day
makes the whole format fail). -/
def validDMY (y m d : Nat) : Bool :=
  1 ≤ y && 1 ≤ m && m ≤ 12 && 1 ≤ d && d ≤ monthLength y m

/-- strptime day field: one or two digits with value 1 to 31. -/
def parseDayField (l : List Char) : Option Nat :=
  if l.length = 1 ∨ l.length = 2 then
    match digitsToNat l with
    | some d => if 1 ≤ d ∧ d ≤ 31 then some d else none
    | none => none
  else none

/-- strptime month field: one or two digits with value 1 to 12. -/
def parseMonthField (l : List Char) : Option Nat :=
  if l.length = 1 ∨ l.length = 2 then
    match digitsToNat l with
    | some m => if 1 ≤ m ∧ m ≤ 12 then some m else none
    | none => none
  else none

/-- strptime four-digit year field. -/
def parseYearField (l : List Char) : Option Nat :=
  if l.length = 4 then digitsToNat l else none

/-- One numeric date format of calculate_age_from_dob: three fields joined
by a separator, day first or year first, validated as a calendar date. -/
def parseSepDate (sep : Char) (yearFirst : Bool) (l : List Char) :
    Option (Nat × Nat × Nat) :=
  match splitOnChar sep l with
  | [a, b, c] =>
    let ys := if yearFirst then a else c
    let ds := if yearFirst then c else a
    match parseYearField ys, parseMonthField b, parseDayField ds with
    | some y, some m, some d => if validDMY y m d then some (y, m, d) else none
    | _, _, _ => none
  | _ => none

/-- English month abbreviations matched by the %b directive. -/
def monthAbbrevs : List String :=
  ["jan", "feb", "mar", "apr", "may", "jun", "jul", "aug", "sep", "oct",
   "nov", "dec"]

/-- English month names matched by the %B directive. -/
def monthFulls : List String :=
  ["january", "february", "march", "april", "may", "june", "july",
   "august", "september", "october", "november", "december"]

/-- Index (starting at the given position) of a lowercased token in a
month-name list; strptime matches month names case-insensitively. -/
def monthFromName : List String → Nat → List Char → Option Nat
  | [], _, _ => none
  | n :: rest, i, tok =>
    if tok = n.toList then some i else monthFromName rest (i + 1) tok

/-- One month-name date format of calculate_age_from_dob (day, month name,
four-digit year separated by whitespace runs). -/
def parseMonthNameDate (names : List String) (l : List Char) :
    Option (Nat × Nat × Nat) :=
  match splitWS l with
  | [ds, ms, ys] =>
    match parseDayField ds, monthFromName names 1 (ms.map Char.toLower),
        parseYearField ys with
    | some d, some m, some y => if validDMY y m d then some (y, m, d) else none
    | _, _, _ => none
  | _ => none

/-- The ordered strptime format list of calculate_age_from_dob
(src/services/data_extraction/extract_contents.py lines 39-47), tried
left to right with the first success winning. -/
def parse_dob_formats (l : List Char) : Option (Nat × Nat × Nat) :=
  (parseSepDate '/' false l).orElse fun _ =>
  (parseSepDate '-' false l).orElse fun _ =>
  (parseSepDate '.' false l).orElse fun _ =>
  (parseSepDate '/' true l).orElse fun _ =>
  (parseSepDate '-' true l).orElse fun _ =>
  (parseMonthNameDate monthAbbrevs l).orElse fun _ =>
  parseMonthNameDate monthFulls l

/-- Word character of the regex word-boundary assertion. -/
def isWordChar (c : Char) : Bool := c.isAlphanum || c = '_'

/-- Leftmost match of the year-fallback regex of calculate_age_from_dob
(line 59): four digits starting 19 or 20, delimited by word boundaries. -/
def yearSearch : Option Char → List Char → Option Nat
  | prev, c1 :: c2 :: c3 :: c4 :: rest =>
    let bdBefore := match prev with | none => true | some p => !isWordChar p
    let lead := (c1 == '1' && c2 == '9') || (c1 == '2' && c2 == '0')
    let bdAfter := match rest with | [] => true | r :: _ => !isWordChar r
    if bdBefore && lead && c3.isDigit && c4.isDigit && bdAfter then
      digitsToNat [c1, c2, c3, c4]
    else yearSearch (some c1) (c2 :: c3 :: c4 :: rest)
  | _, _ => none

/-- Shallow embedding of calculate_age_from_dob
(src/services/data_extraction/extract_contents.py lines 18-78): an empty
input yields None; the stripped string is tried against the format list;
on a parse the age is the year difference, less one when the current
month/day precede the birth month/day, and a negative result yields None;
with no parse, the first word-bounded 19xx/20xx year strictly between 1900
and the current year yields the plain year difference. -/
def calculate_age_from_dob (today : Date) (dobStr : String) : Option Int :=
  if dobStr = "" then none
  else
    let t := trimChars dobStr.toList
    match parse_dob_formats t with
    | some (y, m, d) =>
      let base : Int := (today.year : Int) - (y : Int)
      let age :=
        if today.month < m ∨ (today.month = m ∧ today.day < d) then base - 1
        else base
      if 0 ≤ age then some age else none
    | none =>
      match yearSearch none t with
      | some by2 =>
        if 1900 < by2 ∧ by2 ≤ today.year then
          some ((today.year : Int) - (by2 : Int))
        else none
      | none => none

/-- The age keys probed by enrich_extracted_data (line 100). -/
def ageKeys : List String := ["age", "current_age"]

/-- The date-of-birth keys probed by enrich_extracted_data (line 101). -/
def dobKeys : List String :=
  ["date_of_birth", "dob", "birth_date", "birthdate", "date_of_birth_dob"]

/-- The has_age test of enrich_extracted_data (lines 104-107): some age
key is present with a truthy value whose strip is truthy. -/
def hasTruthyAge (data : List (String × String)) : Bool :=
  ageKeys.any fun k =>
    match dictLookup k data with
    | some v => v ≠ "" && pyStrip v ≠ ""
    | none => false

/-- The dob loop of enrich_extracted_data (lines 111-117): the first dob
key present with a truthy value whose age computation succeeds sets the
age field (as a rendered integer) and stops; a failed computation moves on
to the next key. -/
def enrichLoop (today : Date) :
    List String → List (String × String) → List (String × String)
  | [], d => d
  | k :: ks, d =>
    match dictLookup k d with
    | some v =>
      if v ≠ "" then
        match calculate_age_from_dob today v with
        | some a => dictSet d "age" (intToStr a)
        | none => enrichLoop today ks d
      else enrichLoop today ks d
    | none => enrichLoop today ks d

/-- Shallow embedding of enrich_extracted_data
(src/services/data_extraction/extract_contents.py lines 81-119): a copy
of the data, with an age field derived from a date-of-birth field when no
truthy age field exists. -/
def enrich_extracted_data (today : Date) (data : List (String × String)) :
    List (String × String) :=
  if hasTruthyAge data then data else enrichLoop today dobKeys data

/-- The consolidated ExtractedData row of an entity
(database/models/extracted_data.py): the processed file hashes, the merged
field data and the last status. -/
structure EntityRecord where
  processed_file_hashes : List String
  extracted_toon_object : List (String × String)
  status : Nat
deriving DecidableEq, Repr

/-- The extracted_data payload the agent service returns: either a TOON
text or a flat object (extract_contents.py treats both, enriching only
the object form). -/
inductive ToonPayload where
  | text (s : String)
  | obj (d : List (String × String))
deriving DecidableEq, Repr

/-- Python falsiness of the agent payload (empty string or empty dict). -/
def toonFalsy : ToonPayload → Bool
  | .text s => s == ""
  | .obj d => d.isEmpty

/-- Modelled from the spec: the value-absence test of merge step 4 in
section 4.3 (empty, whitespace-only, or one of the sentinels N/A,
quoted-empty, null; string data carries no null). -/
def specAbsent (v : String) : Bool := pyStrip v = "" || v = "N/A" || v = "\"\""

/-- Modelled from the spec: the per-field merge of section 4.3 step 4 of
the missing ExtractedDataRepository.upsert_or_merge (the method is called
from extract_contents.py line 194 but absent from the sources): absent
values never write, a missing key is set, a present non-absent value is
kept (first-write-wins), a present absent value is replaced. -/
def spec_merge_fields (existing new : List (String × String)) :
    List (String × String) :=
  new.foldl
    (fun m kv =>
      if specAbsent kv.2 then m
      else
        match dictLookup kv.1 m with
        | none => dictSet m kv.1 kv.2
        | some old => if specAbsent old then dictSet m kv.1 kv.2 else m)
    existing

/-- Field view of the agent payload: an object is merged as is, a TOON
text is merged through the TOON parse of the repository. -/
def payloadFields : ToonPayload → List (String × String)
  | .text s => parse_toon_data s
  | .obj d => d

/-- Modelled from the spec: ExtractedDataRepository.is_file_processed
(called from extract_contents.py line 139 but absent from the sources);
per section 3, a document is processed when its content hash is in the
processed hash list of the entity record. -/
def is_file_processed (db : Option EntityRecord) (fileHash : String) : Bool :=
  match db with
  | none => false
  | some r => r.processed_file_hashes.contains fileHash

/-- Modelled from the spec: ExtractedDataRepository.upsert_or_merge
(called from extract_contents.py line 194 but absent from the sources);
per section 4.3 steps 3, 5 and 7: load the record or initialize an empty
one, merge the new fields, append the content hash and set the status. -/
def upsert_or_merge (db : Option EntityRecord) (fileHash : String)
    (status : Nat) (payload : ToonPayload) : EntityRecord :=
  let r := db.getD ⟨[], [], 0⟩
  { processed_file_hashes := r.processed_file_hashes ++ [fileHash]
    extracted_toon_object :=
      spec_merge_fields r.extracted_toon_object (payloadFields payload)
    status := status }

/-- Outcome of a Python call: a raised exception message or a value. -/
inductive PyResult (α : Type) where
  | raise (msg : String)
  | ok (v : α)
deriving DecidableEq, Repr

/-- Outcome of extract_and_save_organize_data: a propagated exception or
a returned value (None on the duplicate skip, the status otherwise). -/
inductive RunOutcome where
  | error (msg : String)
  | done (ret : Option Nat)
deriving DecidableEq, Repr

/-- Shallow embedding of extract_and_save_organize_data
(src/services/data_extraction/extract_contents.py lines 121-206), with
the impure collaborators passed as outcomes: the hash computation, the
text extraction (the text component of the result) and the agent call
(HTTP status code and extracted payload).  The control flow follows the
source: a failed hash raises; an already-processed hash returns None
without touching the record; a failed extraction raises; empty text
raises before any write; a non-200 agent answer or a falsy payload
raises; otherwise an object payload is enriched and the record is
upserted with status 1, which is returned.  Raised messages are kept
short where the source interpolates details. -/
def extract_and_save_organize_data (today : Date) (db : Option EntityRecord)
    (hashResult : PyResult String) (extraction : PyResult String)
    (agent : PyResult (Nat × ToonPayload)) :
    RunOutcome × Option EntityRecord :=
  match hashResult with
  | .raise msg => (.error ("Error generating file hash: " ++ msg), db)
  | .ok fileHash =>
    if is_file_processed db fileHash then (.done none, db)
    else
      match extraction with
      | .raise msg => (.error ("Error extracting text from PDF: " ++ msg), db)
      | .ok text =>
        if text = "" then (.error "No text extracted from PDF.", db)
        else
          match agent with
          | .raise msg => (.error msg, db)
          | .ok (code, payload) =>
            if code ≠ 200 then
              (.error "Agent service returned an error status code.", db)
            else if toonFalsy payload then
              (.error "No data extracted by agent service.", db)
            else
              let enriched :=
                match payload with
                | .text s => ToonPayload.text s
                | .obj d => ToonPayload.obj (enrich_extracted_data today d)
              (.done (some 1), some (upsert_or_merge db fileHash 1 enriched))

/-- Outcome of the create_entity_data route: a server error (the generic
framework 500 produced by an exception escaping the route unhandled) or
the response body status. -/
inductive RouterOutcome where
  | serverError
  | ok (ret : Option Nat)
deriving DecidableEq, Repr

/-- The row list ExtractedDataRepository.get_by_entity yields for one
entity under the consolidated schema (entity_id unique): at most one
row. -/
def get_by_entity (db : Option EntityRecord) : List EntityRecord :=
  match db with
  | none => []
  | some r => [r]

/-- Shallow embedding of the create_entity_data route
(api/v1/routers/user_data.py lines 36-88).  The route hashes the upload
and pre-checks for duplicates by reading the per-row file_hash attribute
over the existing rows of the entity (line 51); under the consolidated
ExtractedData model that attribute no longer exists, so the comprehension
raises AttributeError for ANY entity that already has a record — before
the membership test — and the except handler that should turn this into
an HTTPException itself crashes: the assignment at line 80 to a local
variable named like the fastapi status module shadows that module
throughout the function, so every reference to one of its HTTP constants
raises UnboundLocalError, and the unhandled exception surfaces as the
generic framework server error.  The HTTPException(400) raise at lines
53-56 is unreachable for the same two reasons (and would in any case be
swallowed by the except Exception of its own try block and replaced).
With no existing record the route stores the file, delegates to
extract_and_save_organize_data and returns its value as the response
status; a raised extraction error again reaches an except handler whose
status reference raises UnboundLocalError, surfacing as the generic
server error. -/
def create_entity_data (today : Date) (db : Option EntityRecord)
    (fileHash : String) (extraction : PyResult String)
    (agent : PyResult (Nat × ToonPayload)) :
    RouterOutcome × Option EntityRecord :=
  if (get_by_entity db).isEmpty then
    match extract_and_save_organize_data today db (.ok fileHash) extraction
        agent with
    | (.error _, db2) => (.serverError, db2)
    | (.done v, db2) => (.ok v, db2)
  else (.serverError, db)

/-- Last good (truthy, non-sentinel) value bound to a key in a new dict;
used to characterize what deep_merge leaves at a key that the existing
record already holds. -/
def lastGood (k : String) : List (String × Option String) → Option (Option String)
  | [] => none
  | (k2, v) :: t =>
    match lastGood k t with
    | some w => some w
    | none => if k2 = k ∧ goodValue v then some v else none

/-- A constrained-choice template field with a male/female options list,
as parse_html_template derives it from a select element. -/
def genderField : FieldInfo :=
  { name := "gender", label := "Gender", ftype := "select", required := false,
    options := ["male", "female"] }

/-- The select element of that field inside the template document. -/
def genderSelect : FormElement :=
  { tag := "select", type_attr := none, name_attr := some "gender",
    id_attr := some "gender", value_attr := none, checked := false,
    content := "", options :=
      [ { value_attr := some "male", text := "Male", selected := false },
        { value_attr := some "female", text := "Female", selected := false } ] }

/-- A plain text input with no relation to the gender field, used to
observe the frame property of the filler. -/
def cityInput : FormElement :=
  { tag := "input", type_attr := some "text", name_attr := some "city",
    id_attr := some "city", value_attr := some "Madrid", checked := false,
    content := "", options := [] }

/- ------------------------------------------------------------------ -/
/- Helper lemmas                                                       -/
/- ------------------------------------------------------------------ -/

theorem dictLookup_dictSet_self {α : Type} (d : List (String × α)) (k : String)
    (v : α) : dictLookup k (dictSet d k v) = some v := by
  induction d with
  | nil => simp [dictSet, dictLookup]
  | cons h t ih =>
    obtain ⟨k2, w⟩ := h
    by_cases hk : k2 = k
    · simp [dictSet, hk, dictLookup]
    · simp [dictSet, hk, dictLookup, ih]

theorem dictLookup_dictSet_ne {α : Type} (d : List (String × α)) (k k2 : String)
    (v : α) (h : k ≠ k2) : dictLookup k (dictSet d k2 v) = dictLookup k d := by
  induction d with
  | nil =>
    have h2 : ¬ k2 = k := fun hh => h hh.symm
    simp [dictSet, dictLookup, h2]
  | cons hd t ih =>
    obtain ⟨k3, w⟩ := hd
    by_cases hk : k3 = k2
    · subst hk
      have h2 : ¬ k3 = k := fun hh => h hh.symm
      simp [dictSet, dictLookup, h2]
    · simp [dictSet, hk, dictLookup, ih]

theorem mem_dictSet {α : Type} (d : List (String × α)) (k : String) (v : α)
    (p : String × α) (hp : p ∈ dictSet d k v) : p = (k, v) ∨ p ∈ d := by
  induction d with
  | nil => simpa [dictSet] using hp
  | cons hd t ih =>
    obtain ⟨k3, w⟩ := hd
    by_cases hk : k3 = k
    · subst hk
      rcases (by simpa [dictSet] using hp : p = (k3, v) ∨ p ∈ t) with h | h
      · exact Or.inl h
      · exact Or.inr (List.mem_cons_of_mem _ h)
    · rcases (by simpa [dictSet, hk] using hp : p = (k3, w) ∨ p ∈ dictSet t k v)
          with h | h
      · exact Or.inr (by simp [h])
      · rcases ih h with h2 | h2
        · exact Or.inl h2
        · exact Or.inr (List.mem_cons_of_mem _ h2)

theorem dictLookup_mem {α : Type} (d : List (String × α)) (k : String) (v : α)
    (h : dictLookup k d = some v) : (k, v) ∈ d := by
  induction d with
  | nil => simp [dictLookup] at h
  | cons hd t ih =>
    obtain ⟨k2, w⟩ := hd
    by_cases hk : k2 = k
    · subst hk
      simp [dictLookup] at h
      simp [h]
    · simp [dictLookup, hk] at h
      exact List.mem_cons_of_mem _ (ih h)

theorem deep_merge_lookup_present
    (new : List (String × Option String)) :
    ∀ (m : List (String × Option String)) (k : String) (old : Option String),
      dictLookup k m = some old →
      dictLookup k (deep_merge m new) = some ((lastGood k new).getD old) := by
  induction new with
  | nil => intro m k old h; simpa [deep_merge, lastGood] using h
  | cons hd t ih =>
    intro m k old h
    obtain ⟨k2, v⟩ := hd
    have step :
        deep_merge m ((k2, v) :: t)
          = deep_merge
              (if goodValue v then dictSet m k2 v
               else if dictContains m k2 then m else dictSet m k2 v) t := by
      simp [deep_merge]
    by_cases hk : k2 = k
    · subst hk
      by_cases hg : goodValue v = true
      · rw [step, if_pos hg]
        have h2 : dictLookup k2 (dictSet m k2 v) = some v :=
          dictLookup_dictSet_self m k2 v
        rw [ih _ _ _ h2]
        cases hlg : lastGood k2 t with
        | some w => simp [lastGood, hlg]
        | none => simp [lastGood, hlg, hg]
      · have hc : dictContains m k2 = true := by
          simp [dictContains, h]
        rw [step, if_neg hg, if_pos hc]
        rw [ih _ _ _ h]
        cases hlg : lastGood k2 t with
        | some w => simp [lastGood, hlg]
        | none => simp [lastGood, hlg, hg]
    · have hne : k ≠ k2 := fun hh => hk hh.symm
      have hpres :
          dictLookup k
              (if goodValue v then dictSet m k2 v
               else if dictContains m k2 then m else dictSet m k2 v)
            = some old := by
        by_cases hg : goodValue v = true
        · rw [if_pos hg, dictLookup_dictSet_ne _ _ _ _ hne]; exact h
        · rw [if_neg hg]
          by_cases hc : dictContains m k2 = true
          · rw [if_pos hc]; exact h
          · rw [if_neg hc, dictLookup_dictSet_ne _ _ _ _ hne]; exact h
      rw [step, ih _ _ _ hpres]
      have : lastGood k ((k2, v) :: t) = lastGood k t := by
        cases hlg : lastGood k t with
        | some w => simp [lastGood, hlg]
        | none => simp [lastGood, hlg, hk]
      rw [this]

theorem parse_toon_insert_values (d : List (String × String)) (key value : String)
    (hd : ∀ p ∈ d, p.2 ≠ "" ∧ p.2 ≠ "N/A" ∧ p.2 ≠ "\"\"") :
    ∀ p ∈ parse_toon_insert d key value,
      p.2 ≠ "" ∧ p.2 ≠ "N/A" ∧ p.2 ≠ "\"\"" := by
  intro p hp
  unfold parse_toon_insert at hp
  split at hp
  · rename_i hguard
    split at hp
    · rcases mem_dictSet _ _ _ _ hp with h | h
      · subst h; exact ⟨hguard.2.1, hguard.2.2.1, hguard.2.2.2⟩
      · exact hd p h
    · split at hp
      · rcases mem_dictSet _ _ _ _ hp with h | h
        · subst h; exact ⟨hguard.2.1, hguard.2.2.1, hguard.2.2.2⟩
        · exact hd p h
      · exact hd p hp
  · exact hd p hp

theorem parse_toon_insert_preserves (d : List (String × String))
    (key value k v : String) (hv : v ≠ "") (h : dictLookup k d = some v) :
    dictLookup k (parse_toon_insert d key value) = some v := by
  unfold parse_toon_insert
  by_cases hg : key ≠ "" ∧ value ≠ "" ∧ value ≠ "N/A" ∧ value ≠ "\"\""
  · rw [if_pos hg]
    cases hl : dictLookup key d with
    | none =>
      have hk : k ≠ key := by
        intro hh; rw [hh, hl] at h; exact Option.noConfusion h
      rw [dictLookup_dictSet_ne _ _ _ _ hk]; exact h
    | some old =>
      change dictLookup k (if old = "" then dictSet d key value else d) = some v
      by_cases hold : old = ""
      · have hk : k ≠ key := by
          intro hh
          rw [hh, hl] at h
          have hov : old = v := by injection h
          exact hv (hov ▸ hold)
        rw [if_pos hold, dictLookup_dictSet_ne _ _ _ _ hk]; exact h
      · rw [if_neg hold]; exact h
  · rw [if_neg hg]; exact h

theorem parse_toon_line_values (d : List (String × String)) (line : List Char)
    (hd : ∀ p ∈ d, p.2 ≠ "" ∧ p.2 ≠ "N/A" ∧ p.2 ≠ "\"\"") :
    ∀ p ∈ parse_toon_line d line, p.2 ≠ "" ∧ p.2 ≠ "N/A" ∧ p.2 ≠ "\"\"" := by
  intro p hp
  simp only [parse_toon_line] at hp
  split at hp
  · exact parse_toon_insert_values _ _ _ hd p hp
  · exact hd p hp

theorem parse_toon_line_preserves (d : List (String × String)) (line : List Char)
    (k v : String) (hv : v ≠ "") (h : dictLookup k d = some v) :
    dictLookup k (parse_toon_line d line) = some v := by
  simp only [parse_toon_line]
  split
  · exact parse_toon_insert_preserves _ _ _ _ _ hv h
  · exact h

theorem parse_toon_fold_values (lines : List (List Char)) :
    ∀ d, (∀ p ∈ d, p.2 ≠ "" ∧ p.2 ≠ "N/A" ∧ p.2 ≠ "\"\"") →
      ∀ p ∈ lines.foldl parse_toon_line d,
        p.2 ≠ "" ∧ p.2 ≠ "N/A" ∧ p.2 ≠ "\"\"" := by
  induction lines with
  | nil => intro d hd; simpa using hd
  | cons l t ih =>
    intro d hd
    simpa using ih _ (parse_toon_line_values d l hd)

theorem parse_toon_fold_preserves (lines : List (List Char)) :
    ∀ d k v, v ≠ "" → dictLookup k d = some v →
      dictLookup k (lines.foldl parse_toon_line d) = some v := by
  induction lines with
  | nil => intro d k v _ h; simpa using h
  | cons l t ih =>
    intro d k v hv h
    simpa using ih _ k v hv (parse_toon_line_preserves d l k v hv h)

theorem parse_toon_values_good (raw : String) :
    ∀ p ∈ parse_toon_data raw, p.2 ≠ "" ∧ p.2 ≠ "N/A" ∧ p.2 ≠ "\"\"" := by
  unfold parse_toon_data
  exact parse_toon_fold_values _ [] (by simp)

theorem splitOnChar_cons (sep c : Char) (t : List Char) :
    splitOnChar sep (c :: t) =
      if c = sep then [] :: splitOnChar sep t
      else
        match splitOnChar sep t with
        | [] => [[c]]
        | h :: t2 => (c :: h) :: t2 := rfl

theorem splitOnChar_ne_nil (sep : Char) (l : List Char) :
    splitOnChar sep l ≠ [] := by
  cases l with
  | nil => simp [splitOnChar]
  | cons c t =>
    rw [splitOnChar_cons]
    split
    · simp
    · split <;> simp

theorem splitOnChar_append (sep : Char) (a b : List Char) :
    splitOnChar sep (a ++ sep :: b) = splitOnChar sep a ++ splitOnChar sep b := by
  induction a with
  | nil =>
    rw [List.nil_append, splitOnChar_cons, if_pos rfl]
    simp [splitOnChar]
  | cons c t ih =>
    rw [List.cons_append, splitOnChar_cons, splitOnChar_cons]
    by_cases hc : c = sep
    · rw [if_pos hc, if_pos hc, ih, List.cons_append]
    · rw [if_neg hc, if_neg hc, ih]
      cases h : splitOnChar sep t with
      | nil => exact absurd h (splitOnChar_ne_nil sep t)
      | cons h2 t2 => simp

theorem getElem?_map_guard (p : FormElement → Bool) (f : FormElement → FormElement)
    (doc : List FormElement) :
    ∀ (i : Nat) (e : FormElement), doc[i]? = some e → p e = false →
      (doc.map fun x => if p x then f x else x)[i]? = some e := by
  induction doc with
  | nil => intro i e h _; simp at h
  | cons hd t ih =>
    intro i e h hp
    cases i with
    | zero =>
      simp only [List.getElem?_cons_zero] at h
      injection h with h2
      subst h2
      simp [hp]
    | succ n =>
      simp only [List.getElem?_cons_succ] at h
      simpa using ih n e h hp

theorem fill_one_field_frame (doc : List FormElement) (fn value : String)
    (i : Nat) (e : FormElement) (h : doc[i]? = some e)
    (hname : e.name_attr ≠ some fn) (hid : e.id_attr ≠ some fn) :
    (fill_one_field doc fn value)[i]? = some e := by
  have hmn : matchesName fn e = false := by simp [matchesName, hname]
  have hmi : matchesId fn e = false := by simp [matchesId, hid]
  unfold fill_one_field
  split
  · exact getElem?_map_guard _ _ doc i e h hmn
  · exact getElem?_map_guard _ _ doc i e h hmi

theorem fill_frame (formData : List (String × Option String)) :
    ∀ (doc : List FormElement) (i : Nat) (e : FormElement), doc[i]? = some e →
      (∀ kv ∈ formData, e.name_attr ≠ some kv.1 ∧ e.id_attr ≠ some kv.1) →
      (fill_html_template doc formData)[i]? = some e := by
  induction formData with
  | nil => intro doc i e h _; simpa [fill_html_template] using h
  | cons hd t ih =>
    intro doc i e h hk
    obtain ⟨fn, v⟩ := hd
    have hh := hk (fn, v) (List.mem_cons_self _ _)
    have ht : ∀ kv ∈ t, e.name_attr ≠ some kv.1 ∧ e.id_attr ≠ some kv.1 :=
      fun kv hkv => hk kv (List.mem_cons_of_mem _ hkv)
    cases v with
    | none =>
      have hstep : fill_html_template doc ((fn, none) :: t)
          = fill_html_template doc t := by
        simp [fill_html_template]
      rw [hstep]
      exact ih doc i e h ht
    | some vv =>
      have hstep : fill_html_template doc ((fn, some vv) :: t)
          = fill_html_template (fill_one_field doc fn vv) t := by
        simp [fill_html_template]
      rw [hstep]
      exact ih _ i e (fill_one_field_frame doc fn vv i e h hh.1 hh.2) ht

theorem form_fill_validate_step_mono (filled : List (String × Option String))
    (ws : List String) (kv : String × FieldInfo) (x : String) (hx : x ∈ ws) :
    x ∈ form_fill_validate_step filled ws kv := by
  unfold form_fill_validate_step
  split
  · exact hx
  · split
    · exact hx
    · exact List.mem_append_left _ hx

theorem form_fill_validate_fold_mono (fields : List (String × FieldInfo))
    (filled : List (String × Option String)) :
    ∀ ws x, x ∈ ws → x ∈ fields.foldl (form_fill_validate_step filled) ws := by
  induction fields with
  | nil => intro ws x hx; simpa using hx
  | cons hd t ih =>
    intro ws x hx
    simpa using ih _ x (form_fill_validate_step_mono filled ws hd x hx)

theorem form_fill_validate_fold_mem (filled : List (String × Option String))
    (fn : String) (fi : FieldInfo) (ov : Option String) (msg : String)
    (hlk : dictLookup fn filled = some ov)
    (hval : validate_field_data fi ov = (false, some msg)) :
    ∀ (fields : List (String × FieldInfo)), (fn, fi) ∈ fields →
      ∀ ws, msg ∈ fields.foldl (form_fill_validate_step filled) ws := by
  intro fields
  induction fields with
  | nil => intro hmem; simp at hmem
  | cons hd t ih =>
    intro hmem ws
    rcases List.mem_cons.mp hmem with heq | hmemt
    · have hstep : form_fill_validate_step filled ws hd = ws ++ [msg] := by
        rw [← heq]
        unfold form_fill_validate_step
        simp [hlk, hval]
      rw [List.foldl_cons, hstep]
      exact form_fill_validate_fold_mono t filled _ msg (by simp)
    · rw [List.foldl_cons]
      exact ih hmemt _

theorem validate_select_invalid (fi : FieldInfo) (v : String)
    (hty : fi.ftype = "select") (hopts : fi.options ≠ []) (hv : v ≠ "")
    (hnin : v ∉ fi.options) :
    validate_field_data fi (some v)
      = (false, some ("Invalid option for " ++ fi.label)) := by
  unfold validate_field_data
  simp [hv, hty, hopts, hnin]

/- ------------------------------------------------------------------ -/
/- Claim theorems                                                      -/
/- ------------------------------------------------------------------ -/

/-- Claim C1, counterexample: re-submitting an already-merged document
through the create_entity_data route is reported to the caller as a
server error, not as a duplicate success flag — with a consolidated
record present the duplicate pre-check of the route crashes (the per-row
file_hash attribute is gone from the model, and the except handler that
should wrap the failure itself hits the shadowed status module), so the
caller sees the generic framework 500, while the claim says the
duplicate outcome is a success flag and not an error. -/
theorem C1_counterexample :
    create_entity_data ⟨2025, 1, 1⟩
        (some ⟨["h1"], [("name", "A")], 1⟩) "h1" (.ok "text")
        (.ok (200, .obj [("x", "y")]))
      = (.serverError, some ⟨["h1"], [("name", "A")], 1⟩) := by decide

/-- Claim C1 (amended): merging the same document a second time is a
no-op at the extraction layer — extract_and_save_organize_data returns
early with None, performs no writes and leaves the canonical record
identical; the HTTP route, however, never reports a duplicate success
flag: any upload for an entity that already has a consolidated record —
duplicate or not — fails with a server error before the merge layer is
reached, with the record unchanged. -/
theorem C1_duplicate_merge :
    (∀ (today : Date) (db : Option EntityRecord) (fileHash : String)
        (extraction : PyResult String) (agent : PyResult (Nat × ToonPayload)),
        is_file_processed db fileHash = true →
        extract_and_save_organize_data today db (.ok fileHash) extraction agent
          = (.done none, db))
  ∧ (∀ (today : Date) (rec : EntityRecord) (fileHash : String)
        (extraction : PyResult String)
        (agent : PyResult (Nat × ToonPayload)),
        create_entity_data today (some rec) fileHash extraction agent
          = (.serverError, some rec)) := by
  constructor
  · intro today db fileHash extraction agent h
    simp [extract_and_save_organize_data, h]
  · intro today rec fileHash extraction agent
    simp [create_entity_data, get_by_entity]

/-- Claim C1, witness of the amended theorem at a concrete already-merged
document. -/
theorem C1_duplicate_merge_witness :
    extract_and_save_organize_data ⟨2025, 1, 1⟩
        (some ⟨["h1"], [("name", "A")], 1⟩) (.ok "h1") (.ok "text")
        (.ok (200, .obj [("x", "y")]))
      = (.done none, some ⟨["h1"], [("name", "A")], 1⟩) ∧
    create_entity_data ⟨2025, 1, 1⟩
        (some ⟨["h2"], [("city", "Pune")], 1⟩) "h2" (.ok "text")
        (.ok (200, .obj [("x", "y")]))
      = (.serverError, some ⟨["h2"], [("city", "Pune")], 1⟩) :=
  ⟨C1_duplicate_merge.1 _ _ _ _ _ (by decide),
   C1_duplicate_merge.2 ⟨2025, 1, 1⟩ ⟨["h2"], [("city", "Pune")], 1⟩ "h2"
     (.ok "text") (.ok (200, .obj [("x", "y")]))⟩

/-- Claim C3, counterexample: a sentinel value does create a new key —
merging a record with phone N/A into the empty canonical record binds
phone to the string N/A instead of leaving it absent. -/
theorem C3_counterexample :
    dictLookup "phone" (deep_merge [] [("phone", some "N/A")])
        = some (some "N/A") ∧
      dictLookup "phone" (deep_merge [] [("phone", some "N/A")]) ≠ none := by
  decide

/-- Claim C3 (amended): in deep_merge a falsy or sentinel value (empty,
N/A, quoted-empty, null) never overwrites an existing key — the old value
survives whenever the new extraction carries no good value for the key —
but a sentinel value for an absent key IS written into the record; and
parse_toon_data never produces a sentinel-valued entry at all. -/
theorem C3_sentinel_handling :
    (∀ (existing new : List (String × Option String)) (k : String)
        (old : Option String),
        dictLookup k existing = some old → lastGood k new = none →
        dictLookup k (deep_merge existing new) = some old)
  ∧ (∀ (m : List (String × Option String)) (k : String) (v : Option String),
        dictContains m k = false → goodValue v = false →
        dictLookup k (deep_merge m [(k, v)]) = some v)
  ∧ (∀ (raw : String) (k v : String), (k, v) ∈ parse_toon_data raw →
        v ≠ "" ∧ v ≠ "N/A" ∧ v ≠ "\"\"") := by
  refine ⟨?_, ?_, ?_⟩
  · intro existing new k old h hlg
    rw [deep_merge_lookup_present new existing k old h, hlg]
    rfl
  · intro m k v hc hg
    have hsingle : deep_merge m [(k, v)] = dictSet m k v := by
      simp [deep_merge, hg, hc]
    rw [hsingle]
    exact dictLookup_dictSet_self m k v
  · intro raw k v hmem
    exact parse_toon_values_good raw (k, v) hmem

/-- Claim C3, witness: phone N/A never overwrites a stored phone, a
sentinel is written into an absent key, and a TOON line with value N/A
produces no entry. -/
theorem C3_sentinel_handling_witness :
    dictLookup "phone" (deep_merge [("phone", some "123")]
        [("phone", some "N/A")]) = some (some "123") ∧
    dictLookup "phone" (deep_merge [] [("phone", some "N/A")])
        = some (some "N/A") ∧
    ("name", "Jane") ∈ parse_toon_data "name: Jane" ∧
    ("Jane" : String) ≠ "N/A" :=
  ⟨C3_sentinel_handling.1 [("phone", some "123")] [("phone", some "N/A")]
      "phone" (some "123") (by decide) (by decide),
   C3_sentinel_handling.2.1 [] "phone" (some "N/A") (by decide) (by decide),
   by decide,
   (C3_sentinel_handling.2.2 "name: Jane" "name" "Jane" (by decide)).2.1⟩

/-- Claim C5: evaluation of the embedded code at the failing input — the
field name father_name normalizes to the generic person_name semantic key,
not to father_name, because the general name pattern precedes the
father-name pattern in SEMANTIC_FIELD_MAP and re.search matches the
substring name inside father_name; the dedicated father_name rule is
unreachable. -/
theorem C5_father_name_misclassified :
    getSemanticType "father_name" "" = "person_name" ∧
      getSemanticType "father_name" "" ≠ "father_name" := by decide

/-- Claim C7: whenever the extracted text of a document is empty, the
merge aborts with the no-text error propagated to the caller and the
entity record is left unchanged — no field is written and no hash is
recorded. -/
theorem C7_empty_text_aborts (today : Date) (db : Option EntityRecord)
    (fileHash : String) (agent : PyResult (Nat × ToonPayload))
    (h : is_file_processed db fileHash = false) :
    extract_and_save_organize_data today db (.ok fileHash) (.ok "") agent
      = (.error "No text extracted from PDF.", db) := by
  simp [extract_and_save_organize_data, h]

/-- Claim C7, witness at a fresh entity. -/
theorem C7_empty_text_aborts_witness :
    extract_and_save_organize_data ⟨2025, 1, 1⟩ none (.ok "h9") (.ok "")
        (.ok (200, .obj [("a", "b")]))
      = (.error "No text extracted from PDF.", none) :=
  C7_empty_text_aborts _ _ _ _ (by decide)

/-- Claim C8, counterexample: resolving the constrained gender field
(options male/female) against the mapped value unknown does emit a
validation warning, but the value is NOT discarded — the route passes
filled_form_data unchanged to the renderer and returns it verbatim, so
the out-of-options value unknown is still present in the fill output. -/
theorem C8_counterexample :
    (form_fill_process [genderSelect] [("gender", genderField)]
          [("gender", some "unknown")]).validation_warnings ≠ [] ∧
      dictLookup "gender"
          (form_fill_process [genderSelect] [("gender", genderField)]
            [("gender", some "unknown")]).filled_data
        = some (some "unknown") := by decide

/-- Claim C8 (amended): for a constrained-choice field whose resolved
value is outside the declared options, the fill emits a validation
warning, but the value is not discarded — the filled data is passed to
the renderer and returned unchanged; only inside a rendered select
element does the out-of-options value select nothing (every option ends
unselected). -/
theorem C8_option_constraint (template : List FormElement)
    (fields : List (String × FieldInfo)) (filled : List (String × Option String))
    (fn : String) (fi : FieldInfo) (v : String)
    (hmem : (fn, fi) ∈ fields) (hlk : dictLookup fn filled = some (some v))
    (hty : fi.ftype = "select") (hopts : fi.options ≠ []) (hv : v ≠ "")
    (hnin : v ∉ fi.options) :
    ("Invalid option for " ++ fi.label)
        ∈ (form_fill_process template fields filled).validation_warnings ∧
      (form_fill_process template fields filled).filled_data = filled ∧
      (∀ e : FormElement, e.tag = "select" →
        (∀ o ∈ e.options, optionValue o ≠ v ∧ pyStrip o.text ≠ v) →
        ∀ o ∈ (fillElement v e).options, o.selected = false) := by
  refine ⟨?_, rfl, ?_⟩
  · have hval := validate_select_invalid fi v hty hopts hv hnin
    exact form_fill_validate_fold_mem filled fn fi (some v) _ hlk hval fields
      hmem []
  · intro e htag ho o hmem2
    have he : fillElement v e =
        { e with options := e.options.map fun o =>
            if optionValue o = v ∨ pyStrip o.text = v then
              { o with selected := true }
            else { o with selected := false } } := by
      unfold fillElement
      simp [htag]
    rw [he] at hmem2
    rcases List.mem_map.mp hmem2 with ⟨o0, ho0, heq⟩
    rw [if_neg] at heq
    · rw [← heq]
    · rintro (h1 | h2)
      · exact (ho o0 ho0).1 h1
      · exact (ho o0 ho0).2 h2

/-- Claim C8, witness at the concrete gender template. -/
theorem C8_option_constraint_witness :
    ("Invalid option for " ++ genderField.label)
        ∈ (form_fill_process [genderSelect] [("gender", genderField)]
            [("gender", some "unknown")]).validation_warnings ∧
      (form_fill_process [genderSelect] [("gender", genderField)]
          [("gender", some "unknown")]).filled_data
        = [("gender", some "unknown")] := by
  have h := C8_option_constraint [genderSelect] [("gender", genderField)]
      [("gender", some "unknown")] "gender" genderField "unknown" (by decide)
      (by decide) (by decide) (by decide) (by decide) (by decide)
  exact ⟨h.1, h.2.1⟩

/-- Claim C9: rendering a filled form is a frame operation — every
element whose name and id are both absent from the resolved-value map
appears in the output document exactly as in the template (same position,
same attributes, same selection state); the template itself is a value
the fill never mutates, the output being a fresh document. -/
theorem C9_fill_frame (doc : List FormElement)
    (formData : List (String × Option String)) (i : Nat) (e : FormElement)
    (h : doc[i]? = some e)
    (hk : ∀ kv ∈ formData, e.name_attr ≠ some kv.1 ∧ e.id_attr ≠ some kv.1) :
    (fill_html_template doc formData)[i]? = some e :=
  fill_frame formData doc i e h hk

/-- Claim C9, witness: filling the gender field leaves the unrelated city
input untouched at its position. -/
theorem C9_fill_frame_witness :
    (fill_html_template [genderSelect, cityInput]
        [("gender", some "male")])[1]? = some cityInput :=
  C9_fill_frame _ _ 1 cityInput (by decide) (by decide)

/-- Claim C10: the entity-data map parse_toon_data produces contains no
entry whose value is empty, N/A or the literal quoted-empty string; and
the first non-empty value bound to a key wins — lines appended after a
binding never change it. -/
theorem C10_toon_parse :
    (∀ (raw : String) (k v : String), (k, v) ∈ parse_toon_data raw →
        v ≠ "" ∧ v ≠ "N/A" ∧ v ≠ "\"\"")
  ∧ (∀ (raw extra : String) (k v : String),
        dictLookup k (parse_toon_data raw) = some v →
        dictLookup k (parse_toon_data (raw ++ "\n" ++ extra)) = some v) := by
  constructor
  · intro raw k v hmem
    exact parse_toon_values_good raw (k, v) hmem
  · intro raw extra k v h
    have hv : v ≠ "" :=
      (parse_toon_values_good raw (k, v) (dictLookup_mem _ _ _ h)).1
    have hsplit : (raw ++ "\n" ++ extra).toList
        = raw.toList ++ '\n' :: extra.toList := by
      simp [String.toList]
    have hfold : parse_toon_data (raw ++ "\n" ++ extra)
        = (splitOnChar '\n' extra.toList).foldl parse_toon_line
            (parse_toon_data raw) := by
      unfold parse_toon_data
      rw [hsplit, splitOnChar_append, List.foldl_append]
    rw [hfold]
    exact parse_toon_fold_preserves _ _ k v hv h

/-- Claim C10, witness: the sentinel-free property at a concrete entry
and the first-binding-wins property under an appended duplicate line. -/
theorem C10_toon_parse_witness :
    (("Jane" : String) ≠ "" ∧ ("Jane" : String) ≠ "N/A" ∧
        ("Jane" : String) ≠ "\"\"") ∧
      dictLookup "name"
          (parse_toon_data ("name: Jane" ++ "\n" ++ "name: Other"))
        = some "Jane" :=
  ⟨C10_toon_parse.1 "name: Jane" "name" "Jane" (by decide),
   C10_toon_parse.2 "name: Jane" "name: Other" "name" "Jane" (by decide)⟩
